import Mathlib

/-!
Verification of the Bookstore CRUD service (FastAPI + SQLAlchemy + Pydantic).

The embedding models the database as a list of rows (`DB`), in insertion
order.  A row (`BookObj`) mirrors an in-memory SQLAlchemy `Book` object:
every column that the ORM can hold before a commit is optional, because
Python can assign `None` to any attribute; the NOT NULL constraints of the
`books` table are enforced at commit time, together with the UNIQUE
constraints on `isbn` and on the primary key `id`.  A commit whose
resulting table state violates a constraint raises `IntegrityError`;
`create_book` catches it (HTTP 400) while `update_book` does not
(`Err.storage`, a raw store-level failure).  UUIDs and timestamps are
modelled as opaque `Nat` parameters supplied by the caller (`fresh_id`,
`now`), mirroring `uuid.uuid4()` and the server-side `now()` default.

Every service operation has type `... → Except Err α × DB`: the first
component is the HTTP-visible result, the second the durable store state
after the request (unchanged on error, since a failed transaction rolls
back, explicitly in `create_book` and on session close otherwise).
-/

namespace Bookstore

/-- An in-memory ORM `Book` object (`app/models.py`).  Columns `title`,
`author`, `isbn`, `price` are NOT NULL in the table schema but the object
itself can hold `none` before a commit, so they are `Option` here;
`published_year` is a nullable column.  `id` models the UUID primary key
and `created_at` the server-assigned timestamp. -/
structure BookObj where
  id : Nat
  title : Option String
  author : Option String
  published_year : Option Int
  isbn : Option String
  price : Option Rat
  created_at : Nat
deriving DecidableEq, Repr

/-- The durable store: the `books` table in insertion order. -/
abbrev DB := List BookObj

/-- A validated `BookCreate` schema instance (`app/schemas.py`, `BookBase`):
`title`, `author`, `isbn`, `price` required, `published_year` optional. -/
structure BookCreate where
  title : String
  author : String
  published_year : Option Int
  isbn : String
  price : Rat
deriving DecidableEq, Repr

/-- A raw create request body before Pydantic validation: `none` is an
absent (or null) field.  For the required `str`/`float` fields an explicit
null is rejected exactly like an absent field, so both are `none` here. -/
structure RawBookCreate where
  title : Option String
  author : Option String
  published_year : Option Int
  isbn : Option String
  price : Option Rat
deriving DecidableEq, Repr

/-- A `BookUpdate` schema instance (`app/schemas.py`): every field is
optional.  The outer `Option` is Pydantic's set/unset marker (what
`model_dump(exclude_unset=True)` keeps), the inner one is the value, which
may itself be an explicit JSON null (`some none`). -/
structure BookUpdate where
  title : Option (Option String)
  author : Option (Option String)
  published_year : Option (Option Int)
  isbn : Option (Option String)
  price : Option (Option Rat)
deriving DecidableEq, Repr

/-- Failure outcomes visible at the route boundary. `http` is a raised
`HTTPException`; `validation` is a Pydantic `ValidationError` (rejected
before any service logic); `storage` is an uncaught store-level error
(an `IntegrityError` escaping the service, a generic server error). -/
inductive Err where
  | http (status : Nat) (detail : String)
  | validation
  | storage
deriving DecidableEq, Repr

/-- NOT NULL check for one row: the table declares `title`, `author`,
`isbn`, `price` (and `id`, `created_at`, always present here) NOT NULL. -/
def wellFormed (b : BookObj) : Bool :=
  b.title.isSome && b.author.isSome && b.isbn.isSome && b.price.isSome

/-- All rows pass the NOT NULL constraints. -/
def wellAll (db : DB) : Bool :=
  (db.map wellFormed).all (fun x => x)

/-- No two entries of the list hold the same `some` string (SQL UNIQUE:
null values never collide, though `isbn` is also NOT NULL anyway). -/
def noDupSome : List (Option String) → Bool
  | [] => true
  | none :: rest => noDupSome rest
  | some s :: rest => rest.all (fun x => !(x == some s)) && noDupSome rest

/-- UNIQUE constraint on the `isbn` column. -/
def isbnsUnique (db : DB) : Bool :=
  noDupSome (db.map (fun b => b.isbn))

/-- Pairwise distinctness of a list of naturals, as a boolean. -/
def nodupNat : List Nat → Bool
  | [] => true
  | x :: rest => rest.all (fun y => !(y == x)) && nodupNat rest

/-- PRIMARY KEY constraint on `id`. -/
def idsUnique (db : DB) : Bool :=
  nodupNat (db.map (fun b => b.id))

/-- The table constraints the store enforces at commit time; a commit
producing a state that fails this raises `IntegrityError`. -/
def dbConsistent (db : DB) : Bool :=
  wellAll db && isbnsUnique db && idsUnique db

/-- The row built by `Book(**book.model_dump())`: supplied fields, plus the
generated primary key `fresh_id` and the storage-assigned `now`. -/
def mkBook (input : BookCreate) (fresh_id now : Nat) : BookObj :=
  { id := fresh_id
    title := some input.title
    author := some input.author
    published_year := input.published_year
    isbn := some input.isbn
    price := some input.price
    created_at := now }

/-- The add-and-commit phase of `BookService.create_book`: append the new
row and commit; an `IntegrityError` is caught, the transaction rolled
back, and HTTP 400 raised.  It is exposed separately from the duplicate
pre-check so that a race (the store changing between check and commit) can
be expressed by running it against a different store state. -/
def create_commit (db : DB) (input : BookCreate) (fresh_id now : Nat) :
    Except Err BookObj × DB :=
  let nb := mkBook input fresh_id now
  let db2 := db ++ [nb]
  if dbConsistent db2 then (.ok nb, db2)
  else (.error (.http 400 "Failed to add book. ISBN must be unique."), db)

/-- `BookService.create_book`: pre-check for an existing row with the same
isbn (HTTP 400, no side effect), otherwise add and commit. -/
def create_book (db : DB) (input : BookCreate) (fresh_id now : Nat) :
    Except Err BookObj × DB :=
  match db.find? (fun b => b.isbn == some input.isbn) with
  | some _ => (.error (.http 400 "Book with this ISBN already exists."), db)
  | none => create_commit db input fresh_id now

/-- `BookService.list_books`: `query(Book).offset(skip).limit(limit).all()`
over the insertion-ordered table. -/
def list_books (db : DB) (skip limit : Nat) : List BookObj × DB :=
  ((db.drop skip).take limit, db)

/-- `BookService.get_book`: first row matching the id, else HTTP 404. -/
def get_book (db : DB) (book_id : Nat) : Except Err BookObj × DB :=
  match db.find? (fun b => b.id == book_id) with
  | none => (.error (.http 404 "Book not found"), db)
  | some b => (.ok b, db)

/-- The `setattr` loop of `BookService.update_book`: every field present in
`model_dump(exclude_unset=True)` is written (an explicit null is written as
null); absent fields keep the row's value. -/
def applyUpdate (b : BookObj) (u : BookUpdate) : BookObj :=
  { b with
    title := match u.title with | some v => v | none => b.title
    author := match u.author with | some v => v | none => b.author
    published_year :=
      match u.published_year with | some v => v | none => b.published_year
    isbn := match u.isbn with | some v => v | none => b.isbn
    price := match u.price with | some v => v | none => b.price }

/-- Replace the first row whose id matches (the row `first()` returned and
`setattr` mutated). -/
def updateFirst (db : DB) (book_id : Nat) (nb : BookObj) : DB :=
  match db with
  | [] => []
  | b :: rest =>
      if b.id == book_id then nb :: rest
      else b :: updateFirst rest book_id nb

/-- `BookService.update_book`: HTTP 404 when the id is absent; otherwise
merge the supplied fields into the row and commit.  No duplicate-isbn
pre-check; an `IntegrityError` at commit is NOT caught here, so it escapes
as a raw store failure and the transaction is rolled back on session
close. -/
def update_book (db : DB) (book_id : Nat) (data : BookUpdate) :
    Except Err BookObj × DB :=
  match db.find? (fun b => b.id == book_id) with
  | none => (.error (.http 404 "Book not found"), db)
  | some book =>
      let nb := applyUpdate book data
      let db2 := updateFirst db book_id nb
      if dbConsistent db2 then (.ok nb, db2)
      else (.error .storage, db)

/-- Remove the first row whose id matches. -/
def removeFirst (db : DB) (book_id : Nat) : DB :=
  match db with
  | [] => []
  | b :: rest =>
      if b.id == book_id then rest
      else b :: removeFirst rest book_id

/-- `BookService.delete_book`: HTTP 404 when the id is absent; otherwise
delete the row and commit (the route returns 204 with no body). -/
def delete_book (db : DB) (book_id : Nat) : Except Err Unit × DB :=
  match db.find? (fun b => b.id == book_id) with
  | none => (.error (.http 404 "Book not found"), db)
  | some _ => (.ok (), removeFirst db book_id)

/-- Pydantic validation of a create body against `BookCreate`: `title`,
`author`, `isbn`, `price` must be present and `isbn` exactly 13
characters. -/
def validateCreate (raw : RawBookCreate) : Except Err BookCreate :=
  match raw.title, raw.author, raw.isbn, raw.price with
  | some t, some a, some i, some p =>
      if i.length = 13 then
        .ok { title := t, author := a, published_year := raw.published_year
              isbn := i, price := p }
      else .error .validation
  | _, _, _, _ => .error .validation

/-- Pydantic validation of an update body against `BookUpdate`: every
field may be absent; a supplied isbn string must be exactly 13 characters
(an explicit null isbn passes, `Optional[str]` accepts `None`). -/
def validateUpdate (u : BookUpdate) : Except Err BookUpdate :=
  match u.isbn with
  | some (some s) => if s.length = 13 then .ok u else .error .validation
  | _ => .ok u

/-- The POST /books/ route: body validation runs before any service
logic. -/
def create_book_route (db : DB) (raw : RawBookCreate) (fresh_id now : Nat) :
    Except Err BookObj × DB :=
  match validateCreate raw with
  | .error e => (.error e, db)
  | .ok input => create_book db input fresh_id now

/-- The PUT /books/{id} route: body validation runs before any service
logic. -/
def update_book_route (db : DB) (book_id : Nat) (u : BookUpdate) :
    Except Err BookObj × DB :=
  match validateUpdate u with
  | .error e => (.error e, db)
  | .ok data => update_book db book_id data

/-! Helper lemmas about the store-constraint predicates. -/

/-- A member on which the predicate fails makes `all` false. -/
theorem all_false_of_mem {α} {l : List α} {p : α → Bool} {x : α}
    (hx : x ∈ l) (hpx : p x = false) : l.all p = false := by
  cases h : l.all p with
  | true => exact absurd (List.all_eq_true.mp h x hx) (by simp [hpx])
  | false => rfl

/-- Appending a string already present breaks `noDupSome`. -/
theorem noDupSome_append_mem {l : List (Option String)} {s : String}
    (h : some s ∈ l) : noDupSome (l ++ [some s]) = false := by
  induction l with
  | nil => cases h
  | cons x rest ih =>
      rcases List.mem_cons.mp h with hx | hx
      · subst hx
        have hall : (rest ++ [some s]).all (fun y => !(y == some s)) = false :=
          all_false_of_mem (l := rest ++ [some s])
            (List.mem_append_right rest (List.mem_singleton.mpr rfl))
            (by simp)
        simp [noDupSome, hall]
      · cases x with
        | none => simpa [noDupSome] using ih hx
        | some t => simp [noDupSome, ih hx]

/-- Appending a fresh string preserves `noDupSome`. -/
theorem noDupSome_append_fresh {l : List (Option String)} {s : String}
    (h1 : noDupSome l = true) (h2 : some s ∉ l) :
    noDupSome (l ++ [some s]) = true := by
  induction l with
  | nil => simp [noDupSome]
  | cons x rest ih =>
      have h2r : some s ∉ rest := fun hm => h2 (List.mem_cons_of_mem x hm)
      cases x with
      | none =>
          simp only [noDupSome] at h1 ⊢
          exact ih h1 h2r
      | some t =>
          simp only [noDupSome, Bool.and_eq_true] at h1
          have hst : ¬ ((some s : Option String) == some t) = true := by
            intro hc
            exact h2 (by simp_all)
          have hone : List.all [some s] (fun y => !(y == some t)) = true := by
            simp_all
          simp only [List.cons_append, noDupSome]
          simp [List.append_eq, List.all_append, h1.1, hone, ih h1.2 h2r]

/-- Appending a fresh key preserves `nodupNat`. -/
theorem nodupNat_append_fresh {l : List Nat} {x : Nat}
    (h1 : nodupNat l = true) (h2 : x ∉ l) :
    nodupNat (l ++ [x]) = true := by
  induction l with
  | nil => simp [nodupNat]
  | cons y rest ih =>
      have h2r : x ∉ rest := fun hm => h2 (List.mem_cons_of_mem y hm)
      simp only [nodupNat, Bool.and_eq_true] at h1
      have hxy : ¬ (x == y) = true := by
        intro hc
        exact h2 (by simp_all)
      have hone : List.all [x] (fun z => !(z == y)) = true := by simp_all
      simp only [List.cons_append, nodupNat]
      simp [List.append_eq, List.all_append, h1.1, hone, ih h1.2 h2r]

/-- Two distinct rows sharing an isbn value break the UNIQUE check. -/
theorem isbnsUnique_false_of_pair {l : DB} {x y : BookObj} {s : String}
    (hx : x ∈ l) (hy : y ∈ l) (hxy : x.id ≠ y.id)
    (hxs : x.isbn = some s) (hys : y.isbn = some s) :
    isbnsUnique l = false := by
  induction l with
  | nil => cases hx
  | cons b rest ih =>
      rcases List.mem_cons.mp hx with hxb | hxr
      · rcases List.mem_cons.mp hy with hyb | hyr
        · exact absurd (hxb ▸ hyb ▸ rfl) hxy
        · subst hxb
          have : (rest.map (fun b => b.isbn)).all (fun v => !(v == some s)) = false :=
            all_false_of_mem (List.mem_map_of_mem _ hyr) (by simp [hys])
          simp [isbnsUnique, noDupSome, hxs, this]
      · rcases List.mem_cons.mp hy with hyb | hyr
        · subst hyb
          have : (rest.map (fun b => b.isbn)).all (fun v => !(v == some s)) = false :=
            all_false_of_mem (List.mem_map_of_mem _ hxr) (by simp [hxs])
          simp [isbnsUnique, noDupSome, hys, this]
        · have hrest : isbnsUnique rest = false := ih hxr hyr
          simp only [isbnsUnique, List.map_cons] at hrest ⊢
          cases hbisbn : b.isbn with
          | none => simpa [noDupSome] using hrest
          | some t => simp [noDupSome, hrest]

/-- Under the PRIMARY KEY constraint, two rows with the same id are the
same row. -/
theorem idsUnique_inj {l : DB} (h : idsUnique l = true) {x y : BookObj}
    (hx : x ∈ l) (hy : y ∈ l) (hid : x.id = y.id) : x = y := by
  induction l with
  | nil => cases hx
  | cons b rest ih =>
      simp only [idsUnique, List.map_cons, nodupNat, Bool.and_eq_true] at h
      rcases List.mem_cons.mp hx with hxb | hxr
      · rcases List.mem_cons.mp hy with hyb | hyr
        · exact hxb.trans hyb.symm
        · exfalso
          have := List.all_eq_true.mp h.1 y.id (List.mem_map_of_mem _ hyr)
          simp [hxb ▸ hid] at this
      · rcases List.mem_cons.mp hy with hyb | hyr
        · exfalso
          have := List.all_eq_true.mp h.1 x.id (List.mem_map_of_mem _ hxr)
          simp [hyb ▸ hid] at this
        · exact ih h.2 hxr hyr

/-- Rows whose id differs survive `updateFirst`. -/
theorem mem_updateFirst {db : DB} {b2 : BookObj} {book_id : Nat} {nb : BookObj}
    (hm : b2 ∈ db) (hid : (b2.id == book_id) = false) :
    b2 ∈ updateFirst db book_id nb := by
  induction db with
  | nil => cases hm
  | cons b rest ih =>
      cases hb : (b.id == book_id) with
      | true =>
          rcases List.mem_cons.mp hm with hbb | hbr
          · exact absurd (hbb ▸ hb) (by simp [hid])
          · simpa [updateFirst, hb] using List.mem_cons_of_mem nb hbr
      | false =>
          rcases List.mem_cons.mp hm with hbb | hbr
          · simp [updateFirst, hb, hbb]
          · simpa [updateFirst, hb] using List.mem_cons_of_mem b (ih hbr)

/-- When a matching row exists, the written row is in the committed
state. -/
theorem self_mem_updateFirst {db : DB} {book_id : Nat} {old nb : BookObj}
    (hfind : db.find? (fun b => b.id == book_id) = some old) :
    nb ∈ updateFirst db book_id nb := by
  induction db with
  | nil => simp [List.find?] at hfind
  | cons b rest ih =>
      cases hb : (b.id == book_id) with
      | true => simp [updateFirst, hb]
      | false =>
          rw [List.find?_cons, hb] at hfind
          simpa [updateFirst, hb] using List.mem_cons_of_mem b (ih hfind)

/-- Writing a row that agrees with the replaced one on a projection leaves
the projected column list unchanged. -/
theorem updateFirst_map {α : Type} (f : BookObj → α) {db : DB}
    {book_id : Nat} {old nb : BookObj}
    (hfind : db.find? (fun b => b.id == book_id) = some old)
    (hf : f nb = f old) :
    (updateFirst db book_id nb).map f = db.map f := by
  induction db with
  | nil => simp [List.find?] at hfind
  | cons b rest ih =>
      cases hb : (b.id == book_id) with
      | true =>
          rw [List.find?_cons, hb] at hfind
          have : old = b := by simpa using hfind.symm
          simp [updateFirst, hb, hf, this]
      | false =>
          rw [List.find?_cons, hb] at hfind
          simp [updateFirst, hb, ih hfind]

/-- Writing a row that keeps the replaced row's id, isbn and NOT NULL
status keeps the commit-time constraint check unchanged. -/
theorem dbConsistent_updateFirst_eq {db : DB} {book_id : Nat}
    {old nb : BookObj}
    (hfind : db.find? (fun b => b.id == book_id) = some old)
    (hid : nb.id = old.id) (hisbn : nb.isbn = old.isbn)
    (hwf : wellFormed nb = wellFormed old) :
    dbConsistent (updateFirst db book_id nb) = dbConsistent db := by
  have h1 := updateFirst_map (fun b => b.isbn) hfind hisbn
  have h2 := updateFirst_map (fun b => b.id) hfind hid
  have h3 := updateFirst_map wellFormed hfind hwf
  simp [dbConsistent, wellAll, isbnsUnique, idsUnique, h1, h2, h3]

/-- After deleting the found row, no row with that id remains (under the
PRIMARY KEY constraint). -/
theorem removeFirst_no_id {db : DB} {book_id : Nat} {old : BookObj}
    (h : idsUnique db = true)
    (hfind : db.find? (fun b => b.id == book_id) = some old) :
    ∀ b ∈ removeFirst db book_id, (b.id == book_id) = false := by
  induction db with
  | nil => simp [List.find?] at hfind
  | cons b rest ih =>
      simp only [idsUnique, List.map_cons, nodupNat, Bool.and_eq_true] at h
      cases hb : (b.id == book_id) with
      | true =>
          intro x hx
          rw [removeFirst, if_pos hb] at hx
          have hbid : b.id = book_id := by simpa using hb
          have := List.all_eq_true.mp h.1 x.id (List.mem_map_of_mem _ hx)
          simp only [Bool.not_eq_eq_eq_not, Bool.not_true] at this
          simpa [hbid] using this
      | false =>
          rw [List.find?_cons, hb] at hfind
          intro x hx
          rw [removeFirst, if_neg (by simp [hb])] at hx
          rcases List.mem_cons.mp hx with hxb | hxr
          · exact hxb ▸ hb
          · exact ih h.2 hfind x hxr

/-- A member failing the NOT NULL check makes `wellAll` false. -/
theorem wellAll_false_of_mem {l : DB} {b : BookObj}
    (hb : b ∈ l) (hwf : wellFormed b = false) : wellAll l = false :=
  all_false_of_mem (List.mem_map_of_mem wellFormed hb) hwf

/-! Concrete sample data used by the witnesses. -/

/-- A sample stored row. -/
def sampleBook : BookObj :=
  { id := 1, title := some "Dune", author := some "Herbert"
    published_year := some 1965, isbn := some "9780441013593"
    price := some 12, created_at := 100 }

/-- A second sample stored row with a different id and isbn. -/
def sampleBook2 : BookObj :=
  { id := 2, title := some "Emma", author := some "Austen"
    published_year := none, isbn := some "9780141439587"
    price := some 7, created_at := 101 }

/-- A create input reusing `sampleBook`'s isbn. -/
def dupInput : BookCreate :=
  { title := "Other", author := "Y", published_year := none
    isbn := "9780441013593", price := 5 }

/-- An update body that only sets `price`. -/
def priceOnly : BookUpdate :=
  { title := none, author := none, published_year := none
    isbn := none, price := some (some 99) }

/-- An update body that explicitly sets `title` to null. -/
def titleNullUpdate : BookUpdate :=
  { title := some none, author := none, published_year := none
    isbn := none, price := none }

/-- An update body that explicitly sets `published_year` to null. -/
def yearNullUpdate : BookUpdate :=
  { title := none, author := none, published_year := some none
    isbn := none, price := none }

/-! Claim theorems. -/

/-- Claim C1: when a book with the same isbn already exists, create fails
with the DuplicateKey condition (HTTP 400) and leaves the store unchanged;
and when the store itself rejects the commit on the isbn uniqueness
constraint (the check raced against a concurrent write, so the commit runs
against a store `db2` that now holds the isbn), create rolls back and
fails with the same HTTP 400 DuplicateKey condition, not a generic server
error. -/
theorem create_duplicate_isbn (db db2 : DB) (input : BookCreate)
    (fresh_id now : Nat) (b b2 : BookObj)
    (hb : b ∈ db) (hbisbn : b.isbn = some input.isbn)
    (hb2 : b2 ∈ db2) (hb2isbn : b2.isbn = some input.isbn) :
    create_book db input fresh_id now =
      (.error (.http 400 "Book with this ISBN already exists."), db) ∧
    create_commit db2 input fresh_id now =
      (.error (.http 400 "Failed to add book. ISBN must be unique."), db2) := by
  constructor
  · have hsome : (db.find? (fun x => x.isbn == some input.isbn)).isSome :=
      List.find?_isSome.mpr ⟨b, hb, by simp [hbisbn]⟩
    obtain ⟨y, hy⟩ := Option.isSome_iff_exists.mp hsome
    simp [create_book, hy]
  · have hmem : (some input.isbn : Option String) ∈
        db2.map (fun x => x.isbn) :=
      hb2isbn ▸ List.mem_map_of_mem (fun x => x.isbn) hb2
    have hdup : isbnsUnique (db2 ++ [mkBook input fresh_id now]) = false := by
      have := noDupSome_append_mem (s := input.isbn) hmem
      simpa [isbnsUnique, List.map_append, mkBook] using this
    have hcons : dbConsistent (db2 ++ [mkBook input fresh_id now]) = false := by
      simp [dbConsistent, hdup]
    simp [create_commit, hcons]

/-- Witness for C1 at a concrete store and input. -/
theorem create_duplicate_isbn_witness :
    create_book [sampleBook] dupInput 9 200 =
      (.error (.http 400 "Book with this ISBN already exists."), [sampleBook]) ∧
    create_commit [sampleBook] dupInput 9 200 =
      (.error (.http 400 "Failed to add book. ISBN must be unique."), [sampleBook]) :=
  create_duplicate_isbn [sampleBook] [sampleBook] dupInput 9 200
    sampleBook sampleBook (List.mem_singleton.mpr rfl) rfl
    (List.mem_singleton.mpr rfl) rfl

/-- Claim C2: a successful update on an existing id modifies only the
fields explicitly present in the input; every absent field (id and
created_at included, which are never in the input) keeps its previous
value, and the merged record is what the operation returns. -/
theorem update_frame (db : DB) (book_id : Nat) (data : BookUpdate)
    (r : BookObj) (db2 : DB)
    (h : update_book db book_id data = (.ok r, db2)) :
    ∃ old, db.find? (fun b => b.id == book_id) = some old ∧
      r = applyUpdate old data ∧
      r.id = old.id ∧ r.created_at = old.created_at ∧
      (data.title = none → r.title = old.title) ∧
      (data.author = none → r.author = old.author) ∧
      (data.published_year = none → r.published_year = old.published_year) ∧
      (data.isbn = none → r.isbn = old.isbn) ∧
      (data.price = none → r.price = old.price) := by
  cases hf : db.find? (fun b => b.id == book_id) with
  | none => simp [update_book, hf] at h
  | some old =>
      simp only [update_book, hf] at h
      by_cases hc :
          dbConsistent (updateFirst db book_id (applyUpdate old data)) = true
      · rw [if_pos hc] at h
        have hr : r = applyUpdate old data := by
          have := congrArg Prod.fst h
          simpa using this.symm
        refine ⟨old, rfl, hr, by simp [hr, applyUpdate],
          by simp [hr, applyUpdate], ?_, ?_, ?_, ?_, ?_⟩ <;>
          (intro hnone; simp [hr, applyUpdate, hnone])
      · rw [if_neg hc] at h
        simp at h

/-- Witness for C2: updating only the price of a stored book. -/
theorem update_frame_witness :
    ∃ old, ([sampleBook, sampleBook2].find? (fun b => b.id == 2) = some old ∧
      applyUpdate sampleBook2 priceOnly = applyUpdate old priceOnly ∧
      (applyUpdate sampleBook2 priceOnly).id = old.id ∧
      (applyUpdate sampleBook2 priceOnly).created_at = old.created_at ∧
      (priceOnly.title = none →
        (applyUpdate sampleBook2 priceOnly).title = old.title) ∧
      (priceOnly.author = none →
        (applyUpdate sampleBook2 priceOnly).author = old.author) ∧
      (priceOnly.published_year = none →
        (applyUpdate sampleBook2 priceOnly).published_year =
          old.published_year) ∧
      (priceOnly.isbn = none →
        (applyUpdate sampleBook2 priceOnly).isbn = old.isbn) ∧
      (priceOnly.price = none →
        (applyUpdate sampleBook2 priceOnly).price = old.price)) :=
  update_frame [sampleBook, sampleBook2] 2 priceOnly
    (applyUpdate sampleBook2 priceOnly)
    (updateFirst [sampleBook, sampleBook2] 2 (applyUpdate sampleBook2 priceOnly))
    (by rfl)

/-- Claim C3: update performs no duplicate-isbn pre-check; setting isbn to
a value held by a different book reaches the commit, which fails at the
store level and surfaces as a raw storage failure (`Err.storage`), never
as the HTTP DuplicateKey condition that create produces. -/
theorem update_duplicate_isbn_storage (db : DB) (book_id : Nat)
    (data : BookUpdate) (old b2 : BookObj) (s : String)
    (hfind : db.find? (fun b => b.id == book_id) = some old)
    (hdata : data.isbn = some (some s))
    (hb2 : b2 ∈ db) (hb2id : (b2.id == book_id) = false)
    (hb2isbn : b2.isbn = some s) :
    update_book db book_id data = (.error .storage, db) ∧
    (∀ st d, Err.storage ≠ Err.http st d) := by
  have hnbisbn : (applyUpdate old data).isbn = some s := by
    simp [applyUpdate, hdata]
  have holdid : old.id = book_id := by
    simpa using List.find?_some hfind
  have hnbid : (applyUpdate old data).id ≠ b2.id := by
    intro hc
    have : (b2.id == book_id) = true := by
      simp [applyUpdate] at hc
      simp [← hc, holdid]
    simp [hb2id] at this
  have hdup : isbnsUnique (updateFirst db book_id (applyUpdate old data)) =
      false :=
    isbnsUnique_false_of_pair (self_mem_updateFirst hfind)
      (mem_updateFirst hb2 hb2id) hnbid hnbisbn hb2isbn
  have hcons : dbConsistent (updateFirst db book_id (applyUpdate old data)) =
      false := by
    simp [dbConsistent, hdup]
  exact ⟨by simp [update_book, hfind, hcons], fun st d h => by cases h⟩

/-- Witness for C3: pointing `sampleBook`'s isbn at `sampleBook2`'s. -/
theorem update_duplicate_isbn_storage_witness :
    update_book [sampleBook, sampleBook2] 1
      { title := none, author := none, published_year := none
        isbn := some (some "9780141439587"), price := none } =
      (.error .storage, [sampleBook, sampleBook2]) ∧
    (∀ st d, Err.storage ≠ Err.http st d) :=
  update_duplicate_isbn_storage [sampleBook, sampleBook2] 1
    { title := none, author := none, published_year := none
      isbn := some (some "9780141439587"), price := none }
    sampleBook sampleBook2 "9780141439587" (by rfl) rfl
    (List.mem_cons_of_mem _ (List.mem_singleton.mpr rfl)) rfl rfl

/-- Claim C4: a create whose isbn is 13 characters and fresh (and whose
generated id is fresh) passes validation, succeeds, appends the new row,
and returns a record carrying exactly the supplied title, author,
published_year, isbn and price plus the generated id and the
storage-assigned created_at. -/
theorem create_fresh_isbn (db : DB) (t a : String) (py : Option Int)
    (i : String) (p : Rat) (fresh_id now : Nat)
    (hlen : i.length = 13)
    (hfresh : ∀ b ∈ db, b.isbn ≠ some i)
    (hid : ∀ b ∈ db, b.id ≠ fresh_id)
    (hdb : dbConsistent db = true) :
    create_book_route db ⟨some t, some a, py, some i, some p⟩ fresh_id now =
      (.ok (mkBook ⟨t, a, py, i, p⟩ fresh_id now),
        db ++ [mkBook ⟨t, a, py, i, p⟩ fresh_id now]) ∧
    mkBook ⟨t, a, py, i, p⟩ fresh_id now =
      ⟨fresh_id, some t, some a, py, some i, some p, now⟩ := by
  have hsplit : ((wellAll db && isbnsUnique db) && idsUnique db) = true := hdb
  rw [Bool.and_eq_true, Bool.and_eq_true] at hsplit
  obtain ⟨⟨hw, hi⟩, hd⟩ := hsplit
  refine ⟨?_, rfl⟩
  have hfind : db.find? (fun b => b.isbn == some i) = none :=
    List.find?_eq_none.mpr (fun b hb => by simp [hfresh b hb])
  have hwa : wellAll (db ++ [mkBook ⟨t, a, py, i, p⟩ fresh_id now]) =
      true := by
    unfold wellAll at hw ⊢
    rw [List.map_append, List.all_append, hw]
    rfl
  have hiu : isbnsUnique (db ++ [mkBook ⟨t, a, py, i, p⟩ fresh_id now]) =
      true := by
    have hnotmem : (some i : Option String) ∉ db.map (fun b => b.isbn) := by
      intro hm
      obtain ⟨b, hb, hbeq⟩ := List.mem_map.mp hm
      exact hfresh b hb hbeq
    have happ := noDupSome_append_fresh (s := i)
      (show noDupSome (db.map (fun b => b.isbn)) = true from hi) hnotmem
    have hmapnb :
        [mkBook ⟨t, a, py, i, p⟩ fresh_id now].map (fun b => b.isbn) =
          [some i] := rfl
    unfold isbnsUnique
    rw [List.map_append, hmapnb]
    exact happ
  have hidu : idsUnique (db ++ [mkBook ⟨t, a, py, i, p⟩ fresh_id now]) =
      true := by
    have hnotmem : fresh_id ∉ db.map (fun b => b.id) := by
      intro hm
      obtain ⟨b, hb, hbeq⟩ := List.mem_map.mp hm
      exact hid b hb hbeq
    have happ := nodupNat_append_fresh (x := fresh_id)
      (show nodupNat (db.map (fun b => b.id)) = true from hd) hnotmem
    have hmapnb :
        [mkBook ⟨t, a, py, i, p⟩ fresh_id now].map (fun b => b.id) =
          [fresh_id] := rfl
    unfold idsUnique
    rw [List.map_append, hmapnb]
    exact happ
  have hcons : dbConsistent (db ++ [mkBook ⟨t, a, py, i, p⟩ fresh_id now]) =
      true := by
    simp [dbConsistent, hwa, hiu, hidu]
  simp [create_book_route, validateCreate, hlen, create_book, hfind,
    create_commit, hcons]

/-- Witness for C4: creating a fresh book next to `sampleBook`. -/
theorem create_fresh_isbn_witness :
    (0 : Nat) < 1 ∧
    create_book_route [sampleBook]
        ⟨some "Emma", some "Austen", none, some "9780141439587", some 7⟩
        2 101 =
      (.ok (mkBook ⟨"Emma", "Austen", none, "9780141439587", 7⟩ 2 101),
        [sampleBook] ++ [mkBook ⟨"Emma", "Austen", none, "9780141439587", 7⟩ 2 101]) ∧
    mkBook ⟨"Emma", "Austen", none, "9780141439587", 7⟩ 2 101 =
      ⟨2, some "Emma", some "Austen", none, some "9780141439587", some 7, 101⟩ := by
  refine ⟨Nat.zero_lt_one, ?_⟩
  exact create_fresh_isbn [sampleBook] "Emma" "Austen" none "9780141439587"
    7 2 101 (by rfl)
    (by intro b hb; rw [List.mem_singleton.mp hb]; simp [sampleBook])
    (by intro b hb; rw [List.mem_singleton.mp hb]; simp [sampleBook])
    (by rfl)

/-- Claim C5: under the PRIMARY KEY constraint, get fails with NotFound
(HTTP 404) exactly when no stored record has the requested id, and
otherwise returns the unique matching record. -/
theorem get_spec (db : DB) (book_id : Nat) (h : idsUnique db = true) :
    ((get_book db book_id).fst = .error (.http 404 "Book not found") ↔
      ∀ b ∈ db, b.id ≠ book_id) ∧
    (∀ r, (get_book db book_id).fst = .ok r →
      r ∈ db ∧ r.id = book_id ∧ ∀ b ∈ db, b.id = book_id → b = r) := by
  cases hf : db.find? (fun b => b.id == book_id) with
  | none =>
      refine ⟨⟨fun _ b hb hbid => ?_, fun _ => by simp [get_book, hf]⟩,
        fun r hr => ?_⟩
      · have := List.find?_eq_none.mp hf b hb
        simp [hbid] at this
      · simp [get_book, hf] at hr
  | some r0 =>
      have hr0id : r0.id = book_id := by simpa using List.find?_some hf
      have hr0mem : r0 ∈ db := List.mem_of_find?_eq_some hf
      refine ⟨⟨fun habs => ?_, fun hall => absurd hr0id (hall r0 hr0mem)⟩,
        fun r hr => ?_⟩
      · simp [get_book, hf] at habs
      · have hrr : r0 = r := by simpa [get_book, hf] using hr
        subst hrr
        exact ⟨hr0mem, hr0id,
          fun b hb hbid => idsUnique_inj h hb hr0mem (hbid.trans hr0id.symm)⟩

/-- Witness for C5 at a concrete two-row store. -/
theorem get_spec_witness :
    (((get_book [sampleBook, sampleBook2] 2).fst =
        .error (.http 404 "Book not found") ↔
      ∀ b ∈ [sampleBook, sampleBook2], b.id ≠ 2) ∧
    (∀ r, (get_book [sampleBook, sampleBook2] 2).fst = .ok r →
      r ∈ [sampleBook, sampleBook2] ∧ r.id = 2 ∧
        ∀ b ∈ [sampleBook, sampleBook2], b.id = 2 → b = r)) :=
  get_spec [sampleBook, sampleBook2] 2 (by rfl)

/-- Claim C6: delete fails with NotFound (HTTP 404, store unchanged) when
no record has the id; otherwise it returns no value, the record is gone
from the store, and a subsequent get of the same id fails with
NotFound. -/
theorem delete_spec (db : DB) (book_id : Nat) (h : idsUnique db = true) :
    ((∀ b ∈ db, b.id ≠ book_id) →
      delete_book db book_id = (.error (.http 404 "Book not found"), db)) ∧
    (∀ old, db.find? (fun b => b.id == book_id) = some old →
      (delete_book db book_id).fst = .ok () ∧
      old ∉ (delete_book db book_id).snd ∧
      (get_book (delete_book db book_id).snd book_id).fst =
        .error (.http 404 "Book not found")) := by
  constructor
  · intro hall
    have hf : db.find? (fun b => b.id == book_id) = none :=
      List.find?_eq_none.mpr (fun b hb => by simp [hall b hb])
    simp [delete_book, hf]
  · intro old hfind
    have hnone : ∀ b ∈ removeFirst db book_id, (b.id == book_id) = false :=
      removeFirst_no_id h hfind
    have holdid : old.id = book_id := by simpa using List.find?_some hfind
    have hsnd : (delete_book db book_id).snd = removeFirst db book_id := by
      simp [delete_book, hfind]
    refine ⟨by simp [delete_book, hfind], ?_, ?_⟩
    · intro hmem
      rw [hsnd] at hmem
      have := hnone old hmem
      simp [holdid] at this
    · have hf2 : (removeFirst db book_id).find?
          (fun b => b.id == book_id) = none :=
        List.find?_eq_none.mpr (fun b hb => by simp [hnone b hb])
      rw [hsnd]
      simp [get_book, hf2]

/-- Witness for C6: deleting from a concrete two-row store. -/
theorem delete_spec_witness :
    (((∀ b ∈ [sampleBook, sampleBook2], b.id ≠ 2) →
      delete_book [sampleBook, sampleBook2] 2 =
        (.error (.http 404 "Book not found"), [sampleBook, sampleBook2])) ∧
    (∀ old, [sampleBook, sampleBook2].find? (fun b => b.id == 2) = some old →
      (delete_book [sampleBook, sampleBook2] 2).fst = .ok () ∧
      old ∉ (delete_book [sampleBook, sampleBook2] 2).snd ∧
      (get_book (delete_book [sampleBook, sampleBook2] 2).snd 2).fst =
        .error (.http 404 "Book not found"))) :=
  delete_spec [sampleBook, sampleBook2] 2 (by rfl)

/-- Claim C7: list never fails and returns at most `limit` records taken
after skipping `skip` records of the stable insertion order: a contiguous
slice of the stored table.  On an empty catalog it returns the empty
sequence; with M stored books, `list 0 M` returns all M records and
`list M 10` returns the empty sequence. -/
theorem list_spec (db : DB) (skip limit : Nat) :
    (list_books db skip limit).fst.length ≤ limit ∧
    (list_books ([] : DB) skip limit).fst = [] ∧
    (list_books db 0 db.length).fst = db ∧
    (list_books db db.length 10).fst = [] ∧
    List.IsInfix (list_books db skip limit).fst db := by
  refine ⟨?_, ?_, ?_, ?_, ?_⟩
  · simp [list_books, List.length_take]
  · simp [list_books]
  · simp [list_books, List.take_length]
  · simp [list_books, List.drop_length]
  · exact (List.take_prefix _ _).isInfix.trans (List.drop_suffix _ _).isInfix

/-- Claim C8: a create or update body supplying an isbn string that is not
exactly 13 characters, or a create body missing title, author, isbn or
price, is rejected by schema validation with a ValidationError before any
service logic runs (the store is untouched); on update every field may be
omitted and validation passes. -/
theorem validation_spec (db : DB) (book_id fresh_id now : Nat) (s : String)
    (hs : s.length ≠ 13) (t a : String) (py : Option Int) (p : Rat)
    (ot oa oi : Option String) (op : Option Rat)
    (ut ua : Option (Option String)) (upy : Option (Option Int))
    (up : Option (Option Rat)) :
    create_book_route db ⟨some t, some a, py, some s, some p⟩ fresh_id now =
      (.error .validation, db) ∧
    create_book_route db ⟨none, oa, py, oi, op⟩ fresh_id now =
      (.error .validation, db) ∧
    create_book_route db ⟨ot, none, py, oi, op⟩ fresh_id now =
      (.error .validation, db) ∧
    create_book_route db ⟨ot, oa, py, none, op⟩ fresh_id now =
      (.error .validation, db) ∧
    create_book_route db ⟨ot, oa, py, oi, none⟩ fresh_id now =
      (.error .validation, db) ∧
    update_book_route db book_id ⟨ut, ua, upy, some (some s), up⟩ =
      (.error .validation, db) ∧
    validateUpdate ⟨none, none, none, none, none⟩ =
      .ok ⟨none, none, none, none, none⟩ := by
  refine ⟨?_, ?_, ?_, ?_, ?_, ?_, rfl⟩
  · simp [create_book_route, validateCreate, hs]
  · cases oa <;> cases oi <;> cases op <;>
      simp [create_book_route, validateCreate, hs]
  · cases ot <;> cases oi <;> cases op <;>
      simp [create_book_route, validateCreate, hs]
  · cases ot <;> cases oa <;> cases op <;>
      simp [create_book_route, validateCreate, hs]
  · cases ot <;> cases oa <;> cases oi <;>
      simp [create_book_route, validateCreate, hs]
  · simp [update_book_route, validateUpdate, hs]

/-- Witness for C8 at concrete malformed bodies. -/
theorem validation_spec_witness :
    create_book_route [sampleBook] ⟨some "X", some "Y", none, some "123",
        some 5⟩ 9 200 = (.error .validation, [sampleBook]) ∧
    create_book_route [sampleBook] ⟨none, some "Y", none,
        some "9780141439587", some 5⟩ 9 200 =
      (.error .validation, [sampleBook]) ∧
    create_book_route [sampleBook] ⟨some "X", none, none,
        some "9780141439587", some 5⟩ 9 200 =
      (.error .validation, [sampleBook]) ∧
    create_book_route [sampleBook] ⟨some "X", some "Y", none, none,
        some 5⟩ 9 200 = (.error .validation, [sampleBook]) ∧
    create_book_route [sampleBook] ⟨some "X", some "Y", none,
        some "9780141439587", none⟩ 9 200 =
      (.error .validation, [sampleBook]) ∧
    update_book_route [sampleBook] 1 ⟨none, none, none, some (some "123"),
        none⟩ = (.error .validation, [sampleBook]) ∧
    validateUpdate ⟨none, none, none, none, none⟩ =
      .ok ⟨none, none, none, none, none⟩ :=
  validation_spec [sampleBook] 1 9 200 "123" (by decide) "X" "Y" none 5
    (some "X") (some "Y") (some "9780141439587") (some 5) none none none none

/-- Claim C9: the update schema accepts an explicitly supplied null and the
service writes it rather than leaving the field unchanged — distinct from
an absent field, which is preserved.  For the nullable `published_year`
the null is durably written; for `title`, required non-null on create, the
written null is rejected by the store at commit (a raw storage failure),
showing it was treated as a value to write. -/
theorem update_explicit_null (db : DB) (book_id : Nat) (old : BookObj)
    (hfind : db.find? (fun b => b.id == book_id) = some old) :
    validateUpdate titleNullUpdate = .ok titleNullUpdate ∧
    (applyUpdate old titleNullUpdate).title = none ∧
    (applyUpdate old yearNullUpdate).published_year = none ∧
    (applyUpdate old yearNullUpdate).title = old.title ∧
    update_book db book_id titleNullUpdate = (.error .storage, db) ∧
    (dbConsistent db = true →
      update_book db book_id yearNullUpdate =
        (.ok (applyUpdate old yearNullUpdate),
          updateFirst db book_id (applyUpdate old yearNullUpdate))) := by
  refine ⟨rfl, rfl, rfl, rfl, ?_, ?_⟩
  · have hwf : wellFormed (applyUpdate old titleNullUpdate) = false := by
      simp [wellFormed, applyUpdate, titleNullUpdate]
    have hwa : wellAll (updateFirst db book_id
        (applyUpdate old titleNullUpdate)) = false :=
      wellAll_false_of_mem (self_mem_updateFirst hfind) hwf
    have hcons : dbConsistent (updateFirst db book_id
        (applyUpdate old titleNullUpdate)) = false := by
      simp [dbConsistent, hwa]
    simp [update_book, hfind, hcons]
  · intro hdb
    have hcons : dbConsistent (updateFirst db book_id
        (applyUpdate old yearNullUpdate)) = dbConsistent db :=
      dbConsistent_updateFirst_eq hfind rfl rfl rfl
    simp [update_book, hfind, hcons, hdb]

/-- Witness for C9 at a concrete one-row store. -/
theorem update_explicit_null_witness :
    (validateUpdate titleNullUpdate = .ok titleNullUpdate ∧
    (applyUpdate sampleBook titleNullUpdate).title = none ∧
    (applyUpdate sampleBook yearNullUpdate).published_year = none ∧
    (applyUpdate sampleBook yearNullUpdate).title = sampleBook.title ∧
    update_book [sampleBook] 1 titleNullUpdate =
      (.error .storage, [sampleBook]) ∧
    (dbConsistent [sampleBook] = true →
      update_book [sampleBook] 1 yearNullUpdate =
        (.ok (applyUpdate sampleBook yearNullUpdate),
          updateFirst [sampleBook] 1
            (applyUpdate sampleBook yearNullUpdate)))) :=
  update_explicit_null [sampleBook] 1 sampleBook (by rfl)

/-- Claim C10: get and list are read-only — for every store state and
arguments the store after the call is the store before it. -/
theorem read_only (db : DB) (book_id skip limit : Nat) :
    (get_book db book_id).snd = db ∧ (list_books db skip limit).snd = db := by
  constructor
  · cases hf : db.find? (fun b => b.id == book_id) <;> simp [get_book, hf]
  · rfl

end Bookstore
